import Mathlib

/-!
Verification development for the Toon thermostat API client
(`lib/node-toon.js` and the repository's `PromiseQueue`).

The repository carries two revisions of the client in `lib/node-toon.js`:
the earlier one (lines 1-735, called "v1" below) and the later one
(lines 735-1479, called "v2" below).  Where the two revisions differ the
definitions below model each revision separately and say so in their
doc comments.  All definitions are translated directly from the source;
line numbers refer to `lib/node-toon.js`.
-/

/- ------------------------------------------------------------------ -/
/- Status poller model: `getStatus` (v2 lines 863-921, v1 lines 128-183) -/
/- ------------------------------------------------------------------ -/

/-- The mutable snapshot fields kept on the `Toon` instance, as set up by the
constructor (v2 lines 772-776): `targetTemperature`, `measureTemperature`,
`meterGas`, `meterPower`, `temperatureState`, each `undefined` (`none`)
until assigned. -/
structure ToonState where
  measureTemperature : Option ℚ
  targetTemperature : Option ℚ
  meterPower : Option ℚ
  meterGas : Option ℚ
  temperatureState : Option String
deriving DecidableEq, Repr

/-- The constructor defaults: every snapshot field starts `undefined`. -/
def initToonState : ToonState := ⟨none, none, none, none, none⟩

/-- The `thermostatInfo` part of a `status` response body; each field may be
absent (`undefined`). -/
structure ThermostatInfo where
  currentTemp : Option ℤ
  currentSetpoint : Option ℤ
  activeState : Option ℤ
deriving DecidableEq, Repr

/-- JavaScript `Math.round`: round half toward positive infinity. -/
def jsRound (q : ℚ) : ℤ := ⌊q + 1 / 2⌋

/-- The value conversion `Math.round((x / 100) * 10) / 10` applied by
`getStatus` to `currentTemp` and `currentSetpoint`. -/
def tempValue (x : ℤ) : ℚ := (jsRound ((x / 100 : ℚ) * 10) : ℚ) / 10

/-- The `states` map from the constructor (v2 lines 782-788), in insertion
order: comfort 0, home 1, sleep 2, away 3, none -1. -/
def statesMap : List (String × ℤ) :=
  [("comfort", 0), ("home", 1), ("sleep", 2), ("away", 3), ("none", -1)]

/-- The lookup `Object.keys(this.states).filter(key => this.states[key] ===
activeState)[0]` used for `temperatureState`; yields `undefined` (`none`)
when no key matches. -/
def stateKey (n : ℤ) : Option String :=
  ((statesMap.filter (fun p => p.2 == n)).head?).map (fun p => p.1)

/-- Events emitted by `getStatus` (v2 lines 886, 893, 899, 906).  The
`temperatureState` event can carry `undefined` when `activeState` matches no
key of the states map, hence the `Option`. -/
inductive StatusEvent where
  | measureTemperature (v : ℚ)
  | targetTemperature (v : ℚ)
  | temperatureState (v : Option String)
  | initialized
deriving DecidableEq, Repr

/-- The `initialized` test of `getStatus` (v2 lines 873-878): true when
`measureTemperature`, `targetTemperature`, `meterPower` and `meterGas` are
all `undefined` before the update (`temperatureState` is not consulted). -/
def statusInitializedFlag (st : ToonState) : Bool :=
  st.measureTemperature.isNone && st.targetTemperature.isNone
    && st.meterPower.isNone && st.meterGas.isNone

/-- The success-path body of `getStatus` (v2 lines 863-921).  The argument
`result` is the fetched status body collapsed to its `thermostatInfo`
member: `none` when `result` is falsy or has no `thermostatInfo` (the
`if (result && result.thermostatInfo)` test, line 881).  Returns the updated
instance fields together with the list of emitted events in emission order;
the promise resolves with the updated fields (lines 908-914), i.e. with the
first component.  v1 (lines 128-183) differs only in guarding each field on
truthiness instead of definedness. -/
def getStatus (st : ToonState) (result : Option ThermostatInfo) :
    ToonState × List StatusEvent :=
  let initFlag := statusInitializedFlag st
  let st1 :=
    match result with
    | some info =>
      let stA :=
        match info.currentTemp with
        | some x => { st with measureTemperature := some (tempValue x) }
        | none => st
      let stB :=
        match info.currentSetpoint with
        | some x => { stA with targetTemperature := some (tempValue x) }
        | none => stA
      match info.activeState with
      | some s => { stB with temperatureState := stateKey s }
      | none => stB
    | none => st
  let fieldEvents :=
    match result with
    | some info =>
      (match info.currentTemp with
       | some x => [StatusEvent.measureTemperature (tempValue x)]
       | none => [])
      ++ (match info.currentSetpoint with
          | some x => [StatusEvent.targetTemperature (tempValue x)]
          | none => [])
      ++ (match info.activeState with
          | some s => [StatusEvent.temperatureState (stateKey s)]
          | none => [])
    | none => []
  (st1, fieldEvents ++ (if initFlag then [StatusEvent.initialized] else []))

/- ------------------------------------------------------------------ -/
/- Connectivity tracker model (v2 lines 1246-1260, 1296-1299)          -/
/- ------------------------------------------------------------------ -/

/-- The `offline` instance field: `undefined` at construction (v2 line 777),
then `false` or `true`. -/
structure ConnState where
  offline : Option Bool
deriving DecidableEq, Repr

/-- Connectivity events emitted by the client. -/
inductive ConnEvent where
  | online
  | offline
deriving DecidableEq, Repr

/-- One request outcome as seen by the connectivity logic: a success whose
response body is defined or `undefined`, a failure carrying the 500
communication-error signature (which reaches `_markAsOffline` through
`_handleRequestError`, v2 lines 1377-1387), or any other failure. -/
inductive ConnInput where
  | success (responseDefined : Bool)
  | commError
  | otherError
deriving DecidableEq, Repr

/-- `_markAsOnline` (v2 lines 1246-1250): unconditionally set
`offline = false` and emit `online`. -/
def markAsOnline (s : ConnState) : ConnState × List ConnEvent :=
  ({ s with offline := some false }, [ConnEvent.online])

/-- `_markAsOffline` (v2 lines 1256-1260): unconditionally set
`offline = true` and emit `offline`; there is no already-offline guard. -/
def markAsOffline (s : ConnState) : ConnState × List ConnEvent :=
  ({ s with offline := some true }, [ConnEvent.offline])

/-- The connectivity effect of one settled request: on success `_request`
runs `if (typeof response !== 'undefined' && this.offline)
this._markAsOnline()` (v2 line 1298), so `online` fires only when the
response is defined and `offline` is truthy (`some true`); a
communication-error 500 runs `_markAsOffline` (v2 line 1383); every other
outcome leaves connectivity alone. -/
def connStep (s : ConnState) (i : ConnInput) : ConnState × List ConnEvent :=
  match i with
  | ConnInput.success d =>
    if d && (s.offline == some true) then markAsOnline s else (s, [])
  | ConnInput.commError => markAsOffline s
  | ConnInput.otherError => (s, [])

/-- Fold `connStep` over a sequence of request outcomes, concatenating the
emitted events. -/
def connRun (s : ConnState) (l : List ConnInput) : ConnState × List ConnEvent :=
  match l with
  | [] => (s, [])
  | i :: rest =>
    let p := connStep s i
    let q := connRun p.1 rest
    (q.1, p.2 ++ q.2)

/- ------------------------------------------------------------------ -/
/- Request serializer model: the repository's `PromiseQueue` class      -/
/- ------------------------------------------------------------------ -/

namespace PromiseQueue

/-- `remove(fn)`: `this._queue = this._queue.filter(p => p !== fn)`.  Queue
entries are identified by a number; the JavaScript identity comparison on
the distinct `execute` closures is modelled by equality of identifiers. -/
def remove (q : List ℕ) (x : ℕ) : List ℕ := q.filter (fun e => e ≠ x)

/-- `_next()`: `const execute = this._queue.pop(); if (typeof execute !==
'undefined') execute()`.  `Array.prototype.pop` takes the LAST element, so
the most recently enqueued entry is dispatched; it is removed from the
queue before it runs.  Returns the dispatched entry (if any) and the
remaining queue. -/
def nextEntry (q : List ℕ) : Option ℕ × List ℕ :=
  match q.getLast? with
  | some e => (some e, q.dropLast)
  | none => (none, q)

/-- `abort()`: `this._queue.forEach(fn => { fn('aborted'); this.remove(fn) })`.
`forEach` iterates the array captured at call time while `remove` replaces
`this._queue`, so every entry present when `abort` is called is rejected
with the string `'aborted'` and the queue ends empty.  Returns the rejected
entries in order and the (empty) remaining queue. -/
def abortAll (q : List ℕ) : List ℕ × List ℕ := (q, [])

/-- The queue-side effect of an in-flight request failing and its failure
being classified as a 429 by `_handleRequestError` (v2 lines 1369-1376).
While `inflight` runs, `_queue = inflight :: queued` (an entry started
directly from `add` stays in the array until it settles).  On rejection the
`execute` closure runs `this.remove(execute); this._next(); return
reject(err)` (PromiseQueue `add`), so the next entry is popped and
dispatched synchronously; only afterwards does the rejection reach
`_handleRequestError`, whose 429 case calls `this.promiseQueue.abort()`.
Returns (entry dispatched by `_next`, entries rejected with `'aborted'`,
final queue). -/
def onInflight429 (inflight : ℕ) (queued : List ℕ) :
    Option ℕ × List ℕ × List ℕ :=
  let q1 := remove (inflight :: queued) inflight
  let p := nextEntry q1
  let a := abortAll p.2
  (p.1, a.1, a.2)

end PromiseQueue

/- ------------------------------------------------------------------ -/
/- Token manager models: `refreshAccessToken`                          -/
/- v1: lines 397-477 (with `refreshPromise` / `refreshPromises`)       -/
/- v2: lines 1117-1167 (no in-flight coordination)                     -/
/- ------------------------------------------------------------------ -/

/-- A token-endpoint response body; either field may be missing (the
`hasOwnProperty` checks at v1 line 434 / v2 line 1145). -/
structure TokenBody where
  access_token : Option String
  refresh_token : Option String
deriving DecidableEq, Repr

/-- The network outcome of a refresh request: an HTTP-level success carrying
a body, or a rejection carrying an error. -/
inductive RefreshNet where
  | resolvedBody (b : TokenBody)
  | netError (e : String)
deriving DecidableEq, Repr

/-- How one caller's promise ends up: resolved with a token pair, rejected
with an error, or never settled at all. -/
inductive Settlement where
  | resolvedTokens (accessToken refreshToken : String)
  | rejectedErr (e : String)
  | unsettled
deriving DecidableEq, Repr

/-- The refresh-relevant state of a v1 `Toon` instance:
`refreshPromise` truthiness (a refresh network request in flight),
the `refreshPromises` waiter list (caller identifiers, in push order;
the source never clears this array), the stored tokens, and a count of
refresh network requests issued so far (for bookkeeping). -/
structure RefreshSt where
  accessToken : String
  refreshToken : Option String
  refreshInFlight : Bool
  refreshWaiters : List ℕ
  refreshNetworkCalls : ℕ
deriving DecidableEq, Repr

/-- What a single synchronous call to v1 `refreshAccessToken` does before
any network outcome arrives. -/
inductive RefreshCall where
  | registeredWaiter
  | rejectedLocal (e : String)
  | startedNetwork
deriving DecidableEq, Repr

/-- v1 `refreshAccessToken` (lines 397-477), synchronous part.  If
`this.refreshPromise` is set, the call pushes `{resolve, reject}` onto
`this.refreshPromises` and starts no network request (lines 400-408).
Otherwise a missing `refreshToken` is rejected locally with
`missing_refresh_token` (lines 412-415), and else the refresh network
request is issued and `this.refreshPromise` is set (lines 419-431). -/
def refreshAccessTokenV1 (callerId : ℕ) (st : RefreshSt) :
    RefreshSt × RefreshCall :=
  if st.refreshInFlight then
    ({ st with refreshWaiters := st.refreshWaiters ++ [callerId] },
     RefreshCall.registeredWaiter)
  else
    match st.refreshToken with
    | none => (st, RefreshCall.rejectedLocal "missing_refresh_token")
    | some _ =>
      ({ st with refreshInFlight := true,
                 refreshNetworkCalls := st.refreshNetworkCalls + 1 },
       RefreshCall.startedNetwork)

/-- v1 `refreshAccessToken`, completion part (lines 431-475): the handlers
on the in-flight request.  On a body carrying both tokens (lines 431-463)
the tokens are stored, every waiter in `refreshPromises` is resolved with
the same pair, `refreshPromise` is cleared and the initiating caller
resolves with the pair.  On a body missing a token (lines 434-437) the
initiating caller is rejected with `invalid_tokens_object_received`, but
the waiters are NOT settled and `refreshPromise` is NOT cleared.  On a
network rejection (lines 465-475) every waiter is rejected with the same
error, `refreshPromise` is cleared and the initiating caller rejects with
that error.  Returns (new state, initiator settlement, per-waiter
settlements). -/
def refreshCompleteV1 (st : RefreshSt) (net : RefreshNet) :
    RefreshSt × Settlement × List (ℕ × Settlement) :=
  match net with
  | RefreshNet.resolvedBody b =>
    match b.access_token, b.refresh_token with
    | some a, some r =>
      ({ st with accessToken := a, refreshToken := some r,
                 refreshInFlight := false },
       Settlement.resolvedTokens a r,
       st.refreshWaiters.map (fun w => (w, Settlement.resolvedTokens a r)))
    | some _, none =>
      (st, Settlement.rejectedErr "invalid_tokens_object_received",
       st.refreshWaiters.map (fun w => (w, Settlement.unsettled)))
    | none, _ =>
      (st, Settlement.rejectedErr "invalid_tokens_object_received",
       st.refreshWaiters.map (fun w => (w, Settlement.unsettled)))
  | RefreshNet.netError e =>
    ({ st with refreshInFlight := false },
     Settlement.rejectedErr e,
     st.refreshWaiters.map (fun w => (w, Settlement.rejectedErr e)))

/-- Fold a burst of further v1 `refreshAccessToken` calls (the callers that
arrive while a refresh may be in flight) over the state. -/
def refreshBurstV1 (st : RefreshSt) (ids : List ℕ) : RefreshSt :=
  ids.foldl (fun s i => (refreshAccessTokenV1 i s).1) st

/-- The refresh-relevant state of a v2 `Toon` instance: v2's
`refreshAccessToken` (lines 1117-1167) keeps no in-flight marker and no
waiter list. -/
structure RefreshStV2 where
  accessToken : String
  refreshToken : Option String
  refreshNetworkCalls : ℕ
deriving DecidableEq, Repr

/-- v2 `refreshAccessToken` (lines 1117-1167), synchronous part: a missing
`refreshToken` is rejected locally (lines 1121-1124); otherwise the call
unconditionally submits its own refresh request through `_request`
(lines 1128-1141) — nothing is consulted about any refresh already in
flight.  Returns the new state and whether a network refresh request was
issued. -/
def refreshAccessTokenV2start (st : RefreshStV2) : RefreshStV2 × Bool :=
  match st.refreshToken with
  | none => (st, false)
  | some _ =>
    ({ st with refreshNetworkCalls := st.refreshNetworkCalls + 1 }, true)

/-- v2 `refreshAccessToken`, completion part (lines 1142-1165): each call
handles only its own network outcome — a valid body stores the tokens and
resolves that caller, an invalid body or a rejection rejects that caller. -/
def refreshAccessTokenV2complete (st : RefreshStV2) (net : RefreshNet) :
    RefreshStV2 × Settlement :=
  match net with
  | RefreshNet.resolvedBody b =>
    match b.access_token, b.refresh_token with
    | some a, some r =>
      ({ st with accessToken := a, refreshToken := some r },
       Settlement.resolvedTokens a r)
    | some _, none => (st, Settlement.rejectedErr "invalid_tokens_object_received")
    | none, _ => (st, Settlement.rejectedErr "invalid_tokens_object_received")
  | RefreshNet.netError e => (st, Settlement.rejectedErr e)

/- ------------------------------------------------------------------ -/
/- Error classifier / recovery coordinator model                       -/
/- v2 `_request` (lines 1284-1328) and `_handleRequestError`           -/
/- (lines 1336-1416)                                                   -/
/- ------------------------------------------------------------------ -/

/-- The request-descriptor fields the recovery logic reads and writes: the
`Authorization` header (absent for token-endpoint requests) and the
`allowRetry` flag (v2 `_request` line 1286 defaults it to `true` when the
operation did not pass one). -/
structure ReqOptions where
  authorization : Option String
  allowRetry : Bool
deriving DecidableEq, Repr

/-- `_updateAccessTokenInRequestObject` (v2 lines 1269-1275): when the
options carry an `Authorization` header differing from
`Bearer <accessToken>`, overwrite it with `Bearer <accessToken>`. -/
def updateAccessTokenInRequestObject (accessToken : String)
    (options : ReqOptions) : ReqOptions :=
  match options.authorization with
  | some auth =>
    if auth ≠ "Bearer " ++ accessToken then
      { options with authorization := some ("Bearer " ++ accessToken) }
    else options
  | none => options

/-- The network outcome of one submission of the originating descriptor:
a resolved response (abstracted to a number) or a rejection carrying
`error.statusCode || error.code` (`none` models an undefined status) and
whether the error body carries the communication-error signature. -/
inductive NetResult where
  | success (v : ℕ)
  | failure (statusCode : Option ℕ) (commError : Bool)
deriving DecidableEq, Repr

/-- The environment of one originating call: the network outcome of each
submission of the descriptor (attempt 0 is the first submission, attempt 1
the resubmission), the outcome of `refreshAccessToken(false)` (`ok` carries
the new access token) and the outcome of
`setAgreement(this.agreementId, false)`.  The latter two are themselves
requests with retry disallowed; they are abstracted to their final
outcome. -/
structure ReqEnv where
  net : ℕ → NetResult
  refreshResult : Except String String
  agreementResult : Except String Unit

/-- The `ToonAPIError` built by `_request` on a rejection (v2 lines
1304-1308): the status code, the error-body signature, and (a reference
to) the request options. -/
structure ToonAPIError where
  statusCode : Option ℕ
  commError : Bool
  requestOptions : ReqOptions
deriving DecidableEq, Repr

/-- The errors a caller can receive: a `ToonAPIError`, the error of a
failed token refresh, the error of a failed `setAgreement`, or a local
missing-argument error. -/
inductive RErr where
  | api (e : ToonAPIError)
  | refreshError (e : String)
  | agreementError (e : String)
  | missingArgument (e : String)
deriving DecidableEq, Repr

/-- How the originating call settles. -/
inductive ReqOutcome where
  | resolved (v : ℕ)
  | rejected (e : RErr)
deriving DecidableEq, Repr

/-- Observable record of one originating call: its settlement, every
submission of the originating descriptor (with the options as executed, in
order), how many token refreshes and `setAgreement` recoveries ran, and
whether `promiseQueue.abort()` / `_markAsOffline()` were invoked by the
error handler. -/
structure ReqTrace where
  outcome : ReqOutcome
  submitted : List ReqOptions
  refreshCalls : ℕ
  setAgreementCalls : ℕ
  abortCalled : Bool
  markedOffline : Bool
deriving DecidableEq, Repr

/-- A trace with no recovery bookkeeping. -/
def mkTrace (o : ReqOutcome) (s : List ReqOptions) : ReqTrace :=
  ⟨o, s, 0, 0, false, false⟩

mutual

/-- v2 `_request` (lines 1284-1328).  Before execution the queue closure
reassigns `options = this._updateAccessTokenInRequestObject(options)`
(line 1293).  A resolved response resolves the call.  On a rejection a
`ToonAPIError` is built carrying the (updated) options; when
`options.allowRetry` holds the error goes to `_handleRequestError` and the
call settles with the handler's outcome, otherwise the call rejects with
the `ToonAPIError` (lines 1312-1325).  `attempt` indexes the submissions of
this descriptor into the environment: the entry call uses 0, the single
resubmission uses 1. -/
def toonRequest (env : ReqEnv) (tok : String) (options : ReqOptions)
    (attempt : ℕ) : ReqTrace :=
  let options1 := updateAccessTokenInRequestObject tok options
  match env.net attempt with
  | NetResult.success v => mkTrace (ReqOutcome.resolved v) [options1]
  | NetResult.failure code comm =>
    let toonAPIError : ToonAPIError := ⟨code, comm, options1⟩
    if options1.allowRetry then
      let t := handleRequestError env tok toonAPIError
      { t with submitted := options1 :: t.submitted }
    else
      mkTrace (ReqOutcome.rejected (RErr.api toonAPIError)) [options1]
termination_by if options.allowRetry then 3 else 0
decreasing_by
  all_goals
    have hp : ∀ (s : String) (o : ReqOptions),
        (updateAccessTokenInRequestObject s o).allowRetry = o.allowRetry := by
      intro s o
      obtain ⟨auth, ar⟩ := o
      cases auth
      · rfl
      · simp only [updateAccessTokenInRequestObject]
        split <;> rfl
    unfold options1 at *
    simp_all [hp]

/-- v2 `_handleRequestError` (lines 1336-1416), the switch on
`error.statusCode`.  401: if the descriptor still allows a retry, flip
`allowRetry` to `false` (line 1344; `error.requestOptions` aliases the
descriptor), refresh the tokens; on refresh success rewrite the
`Authorization` header with the new access token (line 1355) and resubmit
the descriptor once, settling with the resubmission's outcome; on refresh
failure reject with the refresh error; with retry disallowed reject with
the original error (line 1367).  429: abort the promise queue and reject
with the original error.  500 with the communication-error signature: mark
offline and reject.  500 otherwise: if a retry is allowed, flip
`allowRetry` to `false`, re-bind the agreement; on success resubmit once,
on failure reject with the `setAgreement` error; with retry disallowed
reject.  Any other status: reject with the original error. -/
def handleRequestError (env : ReqEnv) (tok : String) (error : ToonAPIError) :
    ReqTrace :=
  match error.statusCode with
  | some 401 =>
    if error.requestOptions.allowRetry then
      let opts1 : ReqOptions := { error.requestOptions with allowRetry := false }
      match env.refreshResult with
      | Except.ok newTok =>
        let opts2 := updateAccessTokenInRequestObject newTok opts1
        let t := toonRequest env newTok opts2 1
        { t with refreshCalls := t.refreshCalls + 1 }
      | Except.error e =>
        { mkTrace (ReqOutcome.rejected (RErr.refreshError e)) [] with
            refreshCalls := 1 }
    else mkTrace (ReqOutcome.rejected (RErr.api error)) []
  | some 429 =>
    { mkTrace (ReqOutcome.rejected (RErr.api error)) [] with
        abortCalled := true }
  | some 500 =>
    if error.commError then
      { mkTrace (ReqOutcome.rejected (RErr.api error)) [] with
          markedOffline := true }
    else if error.requestOptions.allowRetry then
      let opts1 : ReqOptions := { error.requestOptions with allowRetry := false }
      match env.agreementResult with
      | Except.ok _ =>
        let t := toonRequest env tok opts1 1
        { t with setAgreementCalls := t.setAgreementCalls + 1 }
      | Except.error e =>
        { mkTrace (ReqOutcome.rejected (RErr.agreementError e)) [] with
            setAgreementCalls := 1 }
    else mkTrace (ReqOutcome.rejected (RErr.api error)) []
  | _ => mkTrace (ReqOutcome.rejected (RErr.api error)) []
termination_by if error.requestOptions.allowRetry then 2 else 1
decreasing_by
  all_goals
    have hp : ∀ (s : String) (o : ReqOptions),
        (updateAccessTokenInRequestObject s o).allowRetry = o.allowRetry := by
      intro s o
      obtain ⟨auth, ar⟩ := o
      cases auth
      · rfl
      · simp only [updateAccessTokenInRequestObject]
        split <;> rfl
    (try unfold opts2 at *)
    (try unfold opts1 at *)
    simp_all [hp]

end

/- ------------------------------------------------------------------ -/
/- `setTargetTemperature` (v2 lines 927-945, v1 lines 189-217)         -/
/- ------------------------------------------------------------------ -/

/-- The descriptor built by `_put('temperature', ...)` (v2 lines 1176-1192):
`Authorization: Bearer <accessToken>`, and `allowRetry` defaulted to `true`
by `_request` because `setTargetTemperature` passes no retry argument. -/
def putTemperatureOptions (tok : String) : ReqOptions :=
  ⟨some ("Bearer " ++ tok), true⟩

/-- How the promise returned by `setTargetTemperature` ends up: resolved,
rejected, or never settled at all. -/
inductive SettleResult where
  | resolves (t : ℚ)
  | rejects (e : RErr)
  | pending
deriving DecidableEq, Repr

/-- Whether the promise settles (resolves or rejects) at all. -/
def SettleResult.isSettled : SettleResult → Bool
  | SettleResult.pending => false
  | _ => true

/-- v2 `setTargetTemperature` (lines 927-945).  `if (!temperature)` rejects
a missing or zero temperature (JavaScript falsiness) with
`missing_temperature_argument`; `_put` rejects a falsy access token with
`missing_access_token` (line 1179).  Otherwise the PUT runs through
`_request` (with its single-retry recovery).  When the PUT resolves the
call resolves with the temperature (lines 937-940); when the PUT rejects
the handler only logs (lines 941-943) — neither `resolve` nor `reject` is
called, so the returned promise never settles (`pending`).  In v1
(lines 189-217) a first failure schedules one retry with `preventRetry`
set and a failure of that retry likewise settles nothing. -/
def setTargetTemperature (env : ReqEnv) (tok : String)
    (temperature : Option ℚ) : SettleResult :=
  match temperature with
  | none => SettleResult.rejects (RErr.missingArgument "missing_temperature_argument")
  | some t =>
    if t = 0 then
      SettleResult.rejects (RErr.missingArgument "missing_temperature_argument")
    else if tok = "" then
      SettleResult.rejects (RErr.missingArgument "missing_access_token")
    else
      match (toonRequest env tok (putTemperatureOptions tok) 0).outcome with
      | ReqOutcome.resolved _ => SettleResult.resolves t
      | ReqOutcome.rejected _ => SettleResult.pending

/- ------------------------------------------------------------------ -/
/- Small helper predicates and concrete fixtures                       -/
/- ------------------------------------------------------------------ -/

/-- Whether an outcome is a rejection. -/
def ReqOutcome.isRejected : ReqOutcome → Bool
  | ReqOutcome.rejected _ => true
  | ReqOutcome.resolved _ => false

/-- Recognizer for `measureTemperature` change events. -/
def isMeasureTemperatureEvent : StatusEvent → Bool
  | StatusEvent.measureTemperature _ => true
  | _ => false

/-- Recognizer for `targetTemperature` change events. -/
def isTargetTemperatureEvent : StatusEvent → Bool
  | StatusEvent.targetTemperature _ => true
  | _ => false

/-- Recognizer for `temperatureState` change events. -/
def isTemperatureStateEvent : StatusEvent → Bool
  | StatusEvent.temperatureState _ => true
  | _ => false

/-- Fixture: every submission is rejected with a plain 404, refresh and
agreement recovery would succeed if consulted. -/
def envAll404 : ReqEnv :=
  ⟨fun _ => NetResult.failure (some 404) false, Except.ok "newTok", Except.ok ()⟩

/-- Fixture: the first submission is rejected with a 401, the resubmission
succeeds, and the token refresh yields the access token `newTok`. -/
def env401ThenOk : ReqEnv :=
  ⟨fun n => if n = 0 then NetResult.failure (some 401) false
            else NetResult.success 7,
   Except.ok "newTok", Except.ok ()⟩

/-- Fixture: the first submission is rejected with a 429; recovery
sub-operations would succeed if consulted. -/
def env429 : ReqEnv :=
  ⟨fun _ => NetResult.failure (some 429) false, Except.ok "newTok", Except.ok ()⟩

/-- Fixture: a status body whose `thermostatInfo` carries only
`currentTemp = 1800` (18.0 degrees after conversion). -/
def infoTempOnly : ThermostatInfo := ⟨some 1800, none, none⟩

/-- Fold `getStatus` over a sequence of fetched status results, keeping the
instance state. -/
def statusRun (st : ToonState) (rs : List (Option ThermostatInfo)) : ToonState :=
  rs.foldl (fun s r => (getStatus s r).1) st

/- ------------------------------------------------------------------ -/
/- Helper lemmas                                                       -/
/- ------------------------------------------------------------------ -/

/-- Rewriting the `Authorization` header never touches `allowRetry`. -/
theorem update_allowRetry (s : String) (o : ReqOptions) :
    (updateAccessTokenInRequestObject s o).allowRetry = o.allowRetry := by
  obtain ⟨auth, ar⟩ := o
  cases auth
  · rfl
  · simp only [updateAccessTokenInRequestObject]
    split <;> rfl

/-- On a descriptor carrying an `Authorization` header, the rewrite always
yields `Bearer <accessToken>` (when the header already matches, the
unchanged value is that same string). -/
theorem update_some (s a : String) (ar : Bool) :
    updateAccessTokenInRequestObject s ⟨some a, ar⟩ = ⟨some ("Bearer " ++ s), ar⟩ := by
  by_cases h : a = "Bearer " ++ s
  · simp [updateAccessTokenInRequestObject, h]
  · simp [updateAccessTokenInRequestObject, h]

/-- A submission with a resolved network outcome settles at once: one
submission, no recovery. -/
theorem toonRequest_success (env : ReqEnv) (tok : String) (o : ReqOptions)
    (i v : ℕ) (h : env.net i = NetResult.success v) :
    toonRequest env tok o i
      = mkTrace (ReqOutcome.resolved v) [updateAccessTokenInRequestObject tok o] := by
  rw [toonRequest]
  simp [h]

/-- A submission whose descriptor disallows retry rejects its failure as a
`ToonAPIError` without consulting the error handler. -/
theorem toonRequest_noRetry_failure (env : ReqEnv) (tok : String) (o : ReqOptions)
    (i : ℕ) (c : Option ℕ) (b : Bool) (har : o.allowRetry = false)
    (h : env.net i = NetResult.failure c b) :
    toonRequest env tok o i
      = mkTrace (ReqOutcome.rejected (RErr.api
          ⟨c, b, updateAccessTokenInRequestObject tok o⟩))
          [updateAccessTokenInRequestObject tok o] := by
  rw [toonRequest]
  simp [h, update_allowRetry, har]

/-- A failing submission whose descriptor allows retry hands its error to
`_handleRequestError` and settles with the handler's outcome, the original
submission prepended to the handler's submissions. -/
theorem toonRequest_retry_failure (env : ReqEnv) (tok : String) (o : ReqOptions)
    (c : Option ℕ) (b : Bool) (har : o.allowRetry = true)
    (h0 : env.net 0 = NetResult.failure c b) :
    toonRequest env tok o 0
      = { handleRequestError env tok ⟨c, b, updateAccessTokenInRequestObject tok o⟩ with
          submitted := updateAccessTokenInRequestObject tok o
            :: (handleRequestError env tok
                  ⟨c, b, updateAccessTokenInRequestObject tok o⟩).submitted } := by
  have har1 : (updateAccessTokenInRequestObject tok o).allowRetry = true := by
    rw [update_allowRetry]; exact har
  rw [toonRequest]
  simp [h0, har1]

/-- Every branch of `_handleRequestError` either performs no resubmission or
resubmits the descriptor exactly once with `allowRetry = false`, settling
with the resubmission's outcome. -/
theorem handleRequestError_cases (env : ReqEnv) (tok : String) (e : ToonAPIError) :
    (handleRequestError env tok e).submitted = []
  ∨ (∃ tok2 o2, o2.allowRetry = false
      ∧ (handleRequestError env tok e).submitted = (toonRequest env tok2 o2 1).submitted
      ∧ (handleRequestError env tok e).outcome = (toonRequest env tok2 o2 1).outcome) := by
  rw [handleRequestError]
  repeat' split
  all_goals
    first
      | (left; simp [mkTrace]; done)
      | (right; refine ⟨_, _, ?_, rfl, rfl⟩;
         first
           | rfl
           | (rw [update_allowRetry]))

/-- The 401-with-retry path under a successful refresh: the handler flips
`allowRetry`, rewrites the header to the refreshed bearer token, resubmits
once and adopts the resubmission's outcome. -/
theorem toonRequest_401_refreshOk (env : ReqEnv) (tok a newTok : String) (c : Bool)
    (h3 : env.net 0 = NetResult.failure (some 401) c)
    (h4 : env.refreshResult = Except.ok newTok) :
    toonRequest env tok ⟨some a, true⟩ 0
      = ⟨(toonRequest env newTok ⟨some ("Bearer " ++ newTok), false⟩ 1).outcome,
         [⟨some ("Bearer " ++ tok), true⟩, ⟨some ("Bearer " ++ newTok), false⟩],
         1, 0, false, false⟩ := by
  rcases h5 : env.net 1 with v | ⟨c2, b2⟩ <;>
    simp [toonRequest, handleRequestError, h3, h4, h5, update_some, mkTrace]

/-- The 401-with-retry path under a failing refresh: no resubmission, the
refresh error is propagated. -/
theorem toonRequest_401_refreshErr (env : ReqEnv) (tok a e : String) (c : Bool)
    (h3 : env.net 0 = NetResult.failure (some 401) c)
    (h4 : env.refreshResult = Except.error e) :
    toonRequest env tok ⟨some a, true⟩ 0
      = ⟨ReqOutcome.rejected (RErr.refreshError e),
         [⟨some ("Bearer " ++ tok), true⟩], 1, 0, false, false⟩ := by
  simp [toonRequest, handleRequestError, h3, h4, update_some, mkTrace]

/-- The 429 path: the queue abort runs, the error is propagated, no
resubmission and no refresh. -/
theorem toonRequest_429 (env : ReqEnv) (tok : String) (o : ReqOptions) (c : Bool)
    (har : o.allowRetry = true)
    (h0 : env.net 0 = NetResult.failure (some 429) c) :
    toonRequest env tok o 0
      = ⟨ReqOutcome.rejected (RErr.api
            ⟨some 429, c, updateAccessTokenInRequestObject tok o⟩),
         [updateAccessTokenInRequestObject tok o], 0, 0, true, false⟩ := by
  rw [toonRequest_retry_failure env tok o (some 429) c har h0]
  rw [handleRequestError]
  simp [mkTrace]

/-- Removing an entry that is not in the queue leaves the queue unchanged. -/
theorem remove_of_not_mem (i : ℕ) (q : List ℕ) (h : i ∉ q) :
    PromiseQueue.remove q i = q := by
  unfold PromiseQueue.remove
  rw [List.filter_eq_self]
  intro e he
  simp only [ne_eq, decide_eq_true_eq]
  exact fun hei => h (hei ▸ he)

/-- The queue effect of an in-flight 429 failure with a nonempty backlog:
the most recently enqueued entry is dispatched by `_next` before the abort
runs, and only the remaining entries are rejected with `'aborted'`. -/
theorem onInflight429_spec (i : ℕ) (l : List ℕ) (x : ℕ)
    (hil : i ∉ l) (hix : i ≠ x) :
    PromiseQueue.onInflight429 i (l ++ [x]) = (some x, l, []) := by
  have h1 : PromiseQueue.remove (i :: (l ++ [x])) i = l ++ [x] := by
    unfold PromiseQueue.remove
    rw [List.filter_cons_of_neg (by simp)]
    exact remove_of_not_mem i (l ++ [x]) (by
      intro hmem
      rcases List.mem_append.mp hmem with h | h
      · exact hil h
      · simp at h
        exact hix h)
  unfold PromiseQueue.onInflight429
  rw [h1]
  unfold PromiseQueue.nextEntry PromiseQueue.abortAll
  simp only [List.getLast?_concat, List.dropLast_concat]

/-- A contiguous run of communication-error failures marks offline at every
step: the run of length n + 1 emits n + 1 offline events. -/
theorem connRun_comm_replicate (n : ℕ) :
    ∀ s : ConnState, connRun s (List.replicate (n + 1) ConnInput.commError)
      = (⟨some true⟩, List.replicate (n + 1) ConnEvent.offline) := by
  induction n with
  | zero => intro s; simp [connRun, connStep, markAsOffline]
  | succ m ih =>
    intro s
    rw [List.replicate_succ, connRun]
    simp only [connStep, markAsOffline]
    rw [ih ⟨some true⟩]
    simp [List.replicate_succ]

/-- A defined successful response while offline flips the state to online
and emits exactly one online event. -/
theorem connStep_online (s : ConnState) (h : s.offline = some true) :
    connStep s (ConnInput.success true) = (⟨some false⟩, [ConnEvent.online]) := by
  simp [connStep, h, markAsOnline]

/-- A successful response while not believed offline (unknown or online)
changes nothing and emits nothing. -/
theorem connStep_success_not_offline (s : ConnState) (d : Bool)
    (h : s.offline ≠ some true) :
    connStep s (ConnInput.success d) = (s, []) := by
  obtain ⟨o⟩ := s
  simp only [ConnState.mk.injEq] at h
  rcases o with _ | b
  · simp [connStep]
  · cases b
    · simp [connStep]
    · exact absurd rfl h

/-- From the unknown connectivity state, any sequence of outcomes free of
the communication-error signature leaves the state unknown and emits no
connectivity event. -/
theorem connRun_no_comm (l : List ConnInput)
    (h : ∀ i ∈ l, i ≠ ConnInput.commError) :
    connRun ⟨none⟩ l = (⟨none⟩, []) := by
  induction l with
  | nil => rfl
  | cons i rest ih =>
    have hstep : connStep ⟨none⟩ i = (⟨none⟩, []) := by
      rcases i with d | _ | _
      · simp [connStep]
      · exact absurd rfl (h ConnInput.commError (by simp))
      · simp [connStep]
    rw [connRun]
    simp only [hstep]
    rw [ih (fun j hj => h j (List.mem_cons_of_mem i hj))]
    simp

/-- A v1 refresh call made while a refresh is in flight only registers a
waiter. -/
theorem refreshV1_inflight (i : ℕ) (s : RefreshSt) (h : s.refreshInFlight = true) :
    refreshAccessTokenV1 i s
      = ({ s with refreshWaiters := s.refreshWaiters ++ [i] },
         RefreshCall.registeredWaiter) := by
  simp [refreshAccessTokenV1, h]

/-- Any burst of v1 refresh calls made while a refresh is in flight only
appends waiters: the token fields, the in-flight marker and the count of
network refresh requests are untouched. -/
theorem refreshBurstV1_inflight (ids : List ℕ) :
    ∀ s : RefreshSt, s.refreshInFlight = true →
      refreshBurstV1 s ids = { s with refreshWaiters := s.refreshWaiters ++ ids } := by
  induction ids with
  | nil => intro s h; simp [refreshBurstV1]
  | cons i rest ih =>
    intro s h
    rw [refreshBurstV1, List.foldl_cons, refreshV1_inflight i s h]
    have hrec := ih { s with refreshWaiters := s.refreshWaiters ++ [i] } h
    rw [refreshBurstV1] at hrec
    rw [hrec]
    simp

/-- A v1 refresh call on an idle client with a refresh token present issues
exactly one network refresh request and raises the in-flight marker. -/
theorem refreshV1_start (i : ℕ) (s : RefreshSt) (rt : String)
    (h1 : s.refreshInFlight = false) (h2 : s.refreshToken = some rt) :
    refreshAccessTokenV1 i s
      = ({ s with refreshInFlight := true,
                  refreshNetworkCalls := s.refreshNetworkCalls + 1 },
         RefreshCall.startedNetwork) := by
  simp [refreshAccessTokenV1, h1, h2]

/-- On a token body missing either token, the v1 completion rejects the
initiating caller but leaves every waiter unsettled and the in-flight
marker raised. -/
theorem refreshCompleteV1_invalid (s : RefreshSt) (b : TokenBody)
    (h : b.access_token = none ∨ b.refresh_token = none) :
    refreshCompleteV1 s (RefreshNet.resolvedBody b)
      = (s, Settlement.rejectedErr "invalid_tokens_object_received",
         s.refreshWaiters.map (fun w => (w, Settlement.unsettled))) := by
  obtain ⟨a, r⟩ := b
  rcases h with h | h <;> simp only at h <;> subst h
  · rcases r with _ | rr <;> rfl
  · rcases a with _ | aa <;> rfl

/-- The conversion of the raw value 1800 is 18 degrees. -/
theorem tempValue_1800 : tempValue 1800 = 18 := by
  rw [tempValue, jsRound]
  rw [show ((1800 : ℤ) : ℚ) / 100 * 10 + 1 / 2 = 361 / 2 by norm_num]
  rw [show ⌊(361 / 2 : ℚ)⌋ = 180 by
    rw [Int.floor_eq_iff]
    norm_num]
  norm_num

/- ------------------------------------------------------------------ -/
/- Claim theorems                                                      -/
/- ------------------------------------------------------------------ -/

/-- C1, counterexample.  In the v2 `refreshAccessToken` (lines 1117-1167)
there is no in-flight coordination at all: a second call made while the
first refresh request is still pending in the serializer issues its own,
second network refresh request (the returned flag is `true` and the request
count reaches 2), and the two callers settle with the outcomes of their own
requests, which can differ.  This refutes the claim that a further call
never starts a second network refresh and shares the in-flight outcome. -/
theorem c1_counterexample :
    (refreshAccessTokenV2start (refreshAccessTokenV2start ⟨"a0", some "r0", 0⟩).1).1.refreshNetworkCalls = 2
  ∧ (refreshAccessTokenV2start (refreshAccessTokenV2start ⟨"a0", some "r0", 0⟩).1).2 = true
  ∧ (refreshAccessTokenV2complete ⟨"a0", some "r0", 1⟩
        (RefreshNet.resolvedBody ⟨some "a1", some "r1"⟩)).2
      ≠ (refreshAccessTokenV2complete ⟨"a1", some "r1", 2⟩
            (RefreshNet.netError "econnreset")).2 := by
  decide

/-- C1 (amended): in the v1 `refreshAccessToken` (lines 397-477), which
keeps the `refreshPromise` marker and the `refreshPromises` waiter list, a
call made while a refresh is in flight starts no second network refresh
request and registers as a waiter, and any burst of such calls leaves the
network-request count unchanged; a call on an idle client with a refresh
token starts exactly one network request; on completion with a valid token
body the initiator and every waiter resolve with the same token pair, and
on a network error they all reject with the same error; on a 200 body
missing a token, however, the initiator is rejected while the waiters stay
unsettled and the in-flight marker is never cleared.  (The v2 revision has
no such coordination; see the counterexample.) -/
theorem c1_singleflight_v1 :
    (∀ (i : ℕ) (s : RefreshSt), s.refreshInFlight = true →
        refreshAccessTokenV1 i s
          = ({ s with refreshWaiters := s.refreshWaiters ++ [i] },
             RefreshCall.registeredWaiter))
  ∧ (∀ (s : RefreshSt) (ids : List ℕ), s.refreshInFlight = true →
        refreshBurstV1 s ids = { s with refreshWaiters := s.refreshWaiters ++ ids })
  ∧ (∀ (i : ℕ) (s : RefreshSt) (rt : String), s.refreshInFlight = false →
        s.refreshToken = some rt →
        refreshAccessTokenV1 i s
          = ({ s with refreshInFlight := true,
                      refreshNetworkCalls := s.refreshNetworkCalls + 1 },
             RefreshCall.startedNetwork))
  ∧ (∀ (s : RefreshSt) (a r : String),
        refreshCompleteV1 s (RefreshNet.resolvedBody ⟨some a, some r⟩)
          = ({ s with accessToken := a, refreshToken := some r,
                      refreshInFlight := false },
             Settlement.resolvedTokens a r,
             s.refreshWaiters.map (fun w => (w, Settlement.resolvedTokens a r))))
  ∧ (∀ (s : RefreshSt) (e : String),
        refreshCompleteV1 s (RefreshNet.netError e)
          = ({ s with refreshInFlight := false },
             Settlement.rejectedErr e,
             s.refreshWaiters.map (fun w => (w, Settlement.rejectedErr e))))
  ∧ (∀ (s : RefreshSt) (b : TokenBody),
        b.access_token = none ∨ b.refresh_token = none →
        refreshCompleteV1 s (RefreshNet.resolvedBody b)
          = (s, Settlement.rejectedErr "invalid_tokens_object_received",
             s.refreshWaiters.map (fun w => (w, Settlement.unsettled)))) :=
  ⟨refreshV1_inflight,
   fun s ids h => refreshBurstV1_inflight ids s h,
   refreshV1_start,
   fun _ _ _ => rfl,
   fun _ _ => rfl,
   refreshCompleteV1_invalid⟩

/-- C1, witness for the amended theorem at a concrete state: two waiters
arrive while a refresh is in flight, then the refresh completes with a
valid body and both waiters resolve with the same pair as the initiator. -/
theorem c1_singleflight_v1_witness :
    refreshBurstV1 ⟨"a0", some "r0", true, [], 1⟩ [5, 6]
      = ⟨"a0", some "r0", true, [5, 6], 1⟩
  ∧ refreshCompleteV1 ⟨"a0", some "r0", true, [5, 6], 1⟩
        (RefreshNet.resolvedBody ⟨some "a1", some "r1"⟩)
      = (⟨"a1", some "r1", false, [5, 6], 1⟩, Settlement.resolvedTokens "a1" "r1",
         [(5, Settlement.resolvedTokens "a1" "r1"),
          (6, Settlement.resolvedTokens "a1" "r1")]) := by
  constructor
  · have h := c1_singleflight_v1.2.1 ⟨"a0", some "r0", true, [], 1⟩ [5, 6] rfl
    simpa using h
  · have h := c1_singleflight_v1.2.2.2.1 ⟨"a0", some "r0", true, [5, 6], 1⟩ "a1" "r1"
    simpa using h

/-- C2: for every originating call, the descriptor is submitted at most
twice; every resubmission carries `allowRetry = false` (the flag is flipped
before the single resubmission); and whenever a resubmission happened and
its network outcome is again a failure, the call settles with a rejection —
the mutual recursion of `_request` and `_handleRequestError` cannot retry
again (and the model is a total function, so the recursion terminates). -/
theorem c2_retry_at_most_once (env : ReqEnv) (tok : String) (o : ReqOptions) :
    ((toonRequest env tok o 0).submitted.length ≤ 2)
  ∧ (∀ o2 ∈ (toonRequest env tok o 0).submitted.drop 1, o2.allowRetry = false)
  ∧ (∀ c b, env.net 1 = NetResult.failure c b →
      (toonRequest env tok o 0).submitted.length = 2 →
      (toonRequest env tok o 0).outcome.isRejected = true) := by
  rcases h0 : env.net 0 with v | ⟨c, b⟩
  · rw [toonRequest_success env tok o 0 v h0]
    simp [mkTrace, ReqOutcome.isRejected]
  · by_cases har : o.allowRetry = true
    · rw [toonRequest_retry_failure env tok o c b har h0]
      rcases handleRequestError_cases env tok ⟨c, b, updateAccessTokenInRequestObject tok o⟩
        with hc | ⟨tok2, o2, ho2, hsub, hout⟩
      · simp [hc, ReqOutcome.isRejected]
      · rcases h1 : env.net 1 with v2 | ⟨c2, b2⟩
        · rw [toonRequest_success env tok2 o2 1 v2 h1] at hsub hout
          simp only [hsub, hout, mkTrace]
          refine ⟨by simp, ?_, ?_⟩
          · intro o3 h3
            simp at h3
            subst h3
            rw [update_allowRetry]
            exact ho2
          · intro c3 b3 hnet
            exact absurd hnet (by simp)
        · rw [toonRequest_noRetry_failure env tok2 o2 1 c2 b2 ho2 h1] at hsub hout
          simp only [hsub, hout, mkTrace]
          refine ⟨by simp, ?_, ?_⟩
          · intro o3 h3
            simp at h3
            subst h3
            rw [update_allowRetry]
            exact ho2
          · intro c3 b3 hnet hlen
            simp [ReqOutcome.isRejected]
    · have har2 : o.allowRetry = false := by simpa using har
      rw [toonRequest_noRetry_failure env tok o 0 c b har2 h0]
      simp [mkTrace, ReqOutcome.isRejected]

/-- C2, witness at a concrete environment where every submission fails with
a plain 404: the descriptor is submitted once and the bound of two holds. -/
theorem c2_retry_at_most_once_witness :
    (toonRequest envAll404 "t0" ⟨some "x", true⟩ 0).submitted.length ≤ 2 :=
  (c2_retry_at_most_once envAll404 "t0" ⟨some "x", true⟩).1

/-- C3: when a request with an `Authorization` header and retry still
permitted fails with status 401, the client refreshes the tokens
(`refreshCalls = 1`); on refresh success the descriptor is resubmitted
exactly once with its `Authorization` header rewritten to the refreshed
bearer token and `allowRetry` flipped to `false`, and the original call
settles with the resubmission's outcome; on refresh failure the refresh
error is propagated with no resubmission; and when retry is already
disallowed the original 401 `ToonAPIError` is propagated (both at the
`_request` gate and inside `_handleRequestError`). -/
theorem c3_unauthorized_recovery :
    (∀ (env : ReqEnv) (tok a newTok : String) (c : Bool),
        env.net 0 = NetResult.failure (some 401) c →
        env.refreshResult = Except.ok newTok →
        toonRequest env tok ⟨some a, true⟩ 0
          = ⟨(toonRequest env newTok ⟨some ("Bearer " ++ newTok), false⟩ 1).outcome,
             [⟨some ("Bearer " ++ tok), true⟩, ⟨some ("Bearer " ++ newTok), false⟩],
             1, 0, false, false⟩)
  ∧ (∀ (env : ReqEnv) (tok a e : String) (c : Bool),
        env.net 0 = NetResult.failure (some 401) c →
        env.refreshResult = Except.error e →
        toonRequest env tok ⟨some a, true⟩ 0
          = ⟨ReqOutcome.rejected (RErr.refreshError e),
             [⟨some ("Bearer " ++ tok), true⟩], 1, 0, false, false⟩)
  ∧ (∀ (env : ReqEnv) (tok : String) (o : ReqOptions) (c : Bool),
        o.allowRetry = false →
        env.net 0 = NetResult.failure (some 401) c →
        toonRequest env tok o 0
          = mkTrace (ReqOutcome.rejected (RErr.api
              ⟨some 401, c, updateAccessTokenInRequestObject tok o⟩))
              [updateAccessTokenInRequestObject tok o])
  ∧ (∀ (env : ReqEnv) (tok : String) (o : ReqOptions) (c : Bool),
        o.allowRetry = false →
        handleRequestError env tok ⟨some 401, c, o⟩
          = mkTrace (ReqOutcome.rejected (RErr.api ⟨some 401, c, o⟩)) []) := by
  refine ⟨toonRequest_401_refreshOk, toonRequest_401_refreshErr,
    fun env tok o c h1 h2 => toonRequest_noRetry_failure env tok o 0 (some 401) c h1 h2,
    fun env tok o c h1 => ?_⟩
  rw [handleRequestError]
  simp [h1]

/-- C3, witness at the concrete environment `env401ThenOk`: the first
submission fails with 401, one refresh runs, the resubmission carries the
refreshed bearer token with retry disallowed and resolves, and the call
resolves with that result. -/
theorem c3_unauthorized_recovery_witness :
    toonRequest env401ThenOk "t0" ⟨some "x", true⟩ 0
      = ⟨ReqOutcome.resolved 7,
         [⟨some ("Bearer " ++ "t0"), true⟩, ⟨some ("Bearer " ++ "newTok"), false⟩],
         1, 0, false, false⟩ := by
  have h := c3_unauthorized_recovery.1 env401ThenOk "t0" "x" "newTok" false rfl rfl
  rw [h, toonRequest_success env401ThenOk "newTok" ⟨some ("Bearer " ++ "newTok"), false⟩ 1 7 rfl]
  rfl

/-- C4, counterexample.  With every snapshot field still unknown
(`initToonState`) the fetched `currentTemp` produces a `measureTemperature`
change event (carrying 18) on the very first observation — `getStatus`
emits whenever the field is present in the response, with no
previous-value-known guard — refuting the claim that no per-field change
event fires for a field's first observation. -/
theorem c4_counterexample :
    initToonState.measureTemperature = none
  ∧ (getStatus initToonState (some infoTempOnly)).2.countP isMeasureTemperatureEvent = 1
  ∧ StatusEvent.measureTemperature 18 ∈ (getStatus initToonState (some infoTempOnly)).2 := by
  refine ⟨rfl, by decide, ?_⟩
  rw [show (18 : ℚ) = tempValue 1800 from tempValue_1800.symm]
  simp [getStatus, infoTempOnly, initToonState]

/-- C4 (amended): for each tracked field, exactly one change event fires
precisely when the fetched `thermostatInfo` carries that field — regardless
of whether the previous stored value was known or differs — and the event
carries the converted new value; the stored value is overwritten exactly
when the field is present and is kept otherwise.  (In the v1 revision the
guard is truthiness rather than presence, so a zero raw value additionally
suppresses the event and the store.) -/
theorem c4_field_events (st : ToonState) (info : ThermostatInfo) :
    ((getStatus st (some info)).2.countP isMeasureTemperatureEvent
        = (match info.currentTemp with | some _ => 1 | none => 0))
  ∧ ((getStatus st (some info)).2.countP isTargetTemperatureEvent
        = (match info.currentSetpoint with | some _ => 1 | none => 0))
  ∧ ((getStatus st (some info)).2.countP isTemperatureStateEvent
        = (match info.activeState with | some _ => 1 | none => 0))
  ∧ ((getStatus st (some info)).1.measureTemperature
        = (match info.currentTemp with
           | some x => some (tempValue x) | none => st.measureTemperature))
  ∧ ((getStatus st (some info)).1.targetTemperature
        = (match info.currentSetpoint with
           | some x => some (tempValue x) | none => st.targetTemperature))
  ∧ ((getStatus st (some info)).1.temperatureState
        = (match info.activeState with
           | some s => stateKey s | none => st.temperatureState))
  ∧ (∀ x, info.currentTemp = some x →
        StatusEvent.measureTemperature (tempValue x) ∈ (getStatus st (some info)).2)
  ∧ (∀ x, info.currentSetpoint = some x →
        StatusEvent.targetTemperature (tempValue x) ∈ (getStatus st (some info)).2) := by
  obtain ⟨ct, cs, ast⟩ := info
  cases ct <;> cases cs <;> cases ast <;>
    cases h : statusInitializedFlag st <;>
      simp_all [getStatus, isMeasureTemperatureEvent, isTargetTemperatureEvent,
        isTemperatureStateEvent, List.countP_append, List.countP_cons]

/-- C4, witness for the amended theorem: on the concrete fetch carrying
only `currentTemp = 1800`, the measure-temperature event with the converted
value is emitted. -/
theorem c4_field_events_witness :
    StatusEvent.measureTemperature (tempValue 1800)
      ∈ (getStatus initToonState (some infoTempOnly)).2 :=
  (c4_field_events initToonState infoTempOnly).2.2.2.2.2.2.1 1800 rfl

/-- C5, counterexample.  From the online state, two consecutive
communication-error failures emit two offline events — `_markAsOffline` has
no already-offline guard, so a contiguous run of such failures refires the
event at every step, refuting "exactly once per contiguous run"; moreover a
successful request whose response body is `undefined` does not flip the
state back to online. -/
theorem c5_counterexample :
    (connRun ⟨some false⟩ [ConnInput.commError, ConnInput.commError]).2
      = [ConnEvent.offline, ConnEvent.offline]
  ∧ connStep ⟨some true⟩ (ConnInput.success false) = (⟨some true⟩, []) := by
  decide

/-- C5 (amended): a contiguous run of n + 1 communication-error failures
emits n + 1 offline events (one per failure, also when already offline) and
ends offline; the next successful request with a defined response while
offline flips the state to online and emits exactly one online event; a
successful request while not believed offline emits nothing. -/
theorem c5_offline_online_events :
    (∀ (s : ConnState) (n : ℕ),
        connRun s (List.replicate (n + 1) ConnInput.commError)
          = (⟨some true⟩, List.replicate (n + 1) ConnEvent.offline))
  ∧ (∀ s : ConnState, s.offline = some true →
        connStep s (ConnInput.success true) = (⟨some false⟩, [ConnEvent.online]))
  ∧ (∀ (s : ConnState) (d : Bool), s.offline ≠ some true →
        connStep s (ConnInput.success d) = (s, [])) :=
  ⟨fun s n => connRun_comm_replicate n s, connStep_online,
   connStep_success_not_offline⟩

/-- C5, witness for the amended theorem at concrete states: a run of two
communication errors from online emits two offline events, a defined
success while offline emits one online event, and a success while online
emits nothing. -/
theorem c5_offline_online_events_witness :
    connRun ⟨some false⟩ (List.replicate 2 ConnInput.commError)
      = (⟨some true⟩, List.replicate 2 ConnEvent.offline)
  ∧ connStep ⟨some true⟩ (ConnInput.success true) = (⟨some false⟩, [ConnEvent.online])
  ∧ connStep ⟨some false⟩ (ConnInput.success true) = (⟨some false⟩, []) :=
  ⟨c5_offline_online_events.1 ⟨some false⟩ 1,
   c5_offline_online_events.2.1 ⟨some true⟩ rfl,
   c5_offline_online_events.2.2 ⟨some false⟩ true (by decide)⟩

/-- C6, counterexample.  On a fresh client (`offline = undefined`) the
first successful request leaves the connectivity state unknown and emits no
online event — `_request` only calls `_markAsOnline` when `this.offline` is
truthy, and `undefined` is falsy — refuting the claimed
`unknown → online` transition with exactly one online event on first
success. -/
theorem c6_counterexample :
    connStep ⟨none⟩ (ConnInput.success true) = (⟨none⟩, [])
  ∧ ConnState.mk none ≠ ConnState.mk (some false) := by
  decide

/-- C6 (amended): from the unknown state a successful request (defined
response or not) changes nothing and emits nothing, as does any other
failure; the only edge out of unknown is to offline on a
communication-error failure; and any sequence of outcomes free of the
communication-error signature keeps the state unknown with no connectivity
event at all. -/
theorem c6_unknown_state_edges :
    (∀ d : Bool, connStep ⟨none⟩ (ConnInput.success d) = (⟨none⟩, []))
  ∧ connStep ⟨none⟩ ConnInput.commError = (⟨some true⟩, [ConnEvent.offline])
  ∧ connStep ⟨none⟩ ConnInput.otherError = (⟨none⟩, [])
  ∧ (∀ l : List ConnInput, (∀ i ∈ l, i ≠ ConnInput.commError) →
        connRun ⟨none⟩ l = (⟨none⟩, [])) := by
  refine ⟨fun d => ?_, rfl, rfl, connRun_no_comm⟩
  cases d <;> rfl

/-- C6, witness for the amended theorem: a concrete comm-error-free run
from the unknown state emits nothing. -/
theorem c6_unknown_state_edges_witness :
    connRun ⟨none⟩ [ConnInput.success true, ConnInput.otherError] = (⟨none⟩, []) :=
  c6_unknown_state_edges.2.2.2 [ConnInput.success true, ConnInput.otherError]
    (by decide)

/-- C7, counterexample.  The `initialized` flag only checks that the four
fields are still undefined before the fetch, not that they become known: a
first `getStatus` whose response has no `thermostatInfo` emits
`initialized` although no field transitioned to known and the resolved
snapshot is entirely unpopulated, and a second such call emits
`initialized` again — refuting "exactly once per client lifetime", "all
tracked fields transition from unknown to known" and "resolves with a
fully populated snapshot". -/
theorem c7_counterexample :
    (getStatus initToonState none).2 = [StatusEvent.initialized]
  ∧ (getStatus initToonState none).1 = initToonState
  ∧ (getStatus (getStatus initToonState none).1 none).2 = [StatusEvent.initialized] := by
  decide

/-- C7 (amended): `getStatus` emits `initialized` exactly on those calls
whose pre-state has `measureTemperature`, `targetTemperature`, `meterPower`
and `meterGas` all unknown (`temperatureState` is not consulted), no matter
what the fetch returns — so it can fire on several calls while no
thermostat data has been stored, and since `meterGas` and `meterPower` are
never populated by `getStatus` the resolved snapshot is never fully
populated by it. -/
theorem c7_initialized_emission :
    (∀ (st : ToonState) (r : Option ThermostatInfo),
        StatusEvent.initialized ∈ (getStatus st r).2 ↔ statusInitializedFlag st = true)
  ∧ (∀ st : ToonState, statusInitializedFlag st = true
        ↔ (st.measureTemperature = none ∧ st.targetTemperature = none
            ∧ st.meterPower = none ∧ st.meterGas = none)) := by
  constructor
  · intro st r
    rcases r with _ | ⟨ct, cs, ast⟩
    · cases h : statusInitializedFlag st <;> simp [getStatus, h]
    · cases ct <;> cases cs <;> cases ast <;> cases h : statusInitializedFlag st <;>
        simp [getStatus, h]
  · intro st
    simp [statusInitializedFlag, Option.isNone_iff_eq_none, Bool.and_eq_true]
    tauto

/-- C8, counterexample.  With entry 0 in flight and entries 1 and 2 queued,
a 429 failure of entry 0 dispatches entry 2 (the `pop`-based `_next` runs
when the failing entry frees its slot, before the rejection reaches the 429
handler) and aborts only entry 1 — refuting that all queued-but-not-started
requests are aborted and that nothing is dispatched until a new enqueue. -/
theorem c8_counterexample :
    PromiseQueue.onInflight429 0 [1, 2] = (some 2, [1], [])
  ∧ [1] ≠ [1, 2] := by
  decide

/-- C8 (amended): on a 429 failure of the in-flight entry, the most
recently enqueued waiting entry (if any) is dispatched immediately when the
failing entry releases its slot, the remaining queued entries are rejected
with the string `'aborted'` and the queue is left empty (with an empty
backlog nothing is dispatched or aborted); and at the handler level the 429
error is propagated to the caller with the queue abort performed and no
resubmission and no refresh. -/
theorem c8_429_abort :
    (∀ (i : ℕ) (l : List ℕ) (x : ℕ), i ∉ l → i ≠ x →
        PromiseQueue.onInflight429 i (l ++ [x]) = (some x, l, []))
  ∧ (∀ i : ℕ, PromiseQueue.onInflight429 i [] = (none, [], []))
  ∧ (∀ (env : ReqEnv) (tok : String) (o : ReqOptions) (c : Bool),
        o.allowRetry = true →
        env.net 0 = NetResult.failure (some 429) c →
        toonRequest env tok o 0
          = ⟨ReqOutcome.rejected (RErr.api
                ⟨some 429, c, updateAccessTokenInRequestObject tok o⟩),
             [updateAccessTokenInRequestObject tok o], 0, 0, true, false⟩) := by
  refine ⟨onInflight429_spec, fun i => ?_, toonRequest_429⟩
  simp [PromiseQueue.onInflight429, PromiseQueue.remove, PromiseQueue.nextEntry,
    PromiseQueue.abortAll]

/-- C8, witness for the amended theorem: the queue part at a concrete
backlog and the handler part at the concrete 429 environment. -/
theorem c8_429_abort_witness :
    PromiseQueue.onInflight429 0 ([1] ++ [2]) = (some 2, [1], [])
  ∧ toonRequest env429 "t0" ⟨some "x", true⟩ 0
      = ⟨ReqOutcome.rejected (RErr.api
            ⟨some 429, false, updateAccessTokenInRequestObject "t0" ⟨some "x", true⟩⟩),
         [updateAccessTokenInRequestObject "t0" ⟨some "x", true⟩],
         0, 0, true, false⟩ :=
  ⟨c8_429_abort.1 0 [1] 2 (by decide) (by decide),
   c8_429_abort.2.2 env429 "t0" ⟨some "x", true⟩ false rfl rfl⟩

/-- C9, counterexample.  With a valid temperature of 21.5 and an
environment in which the PUT terminally fails (every submission rejected
with a plain 404), the promise returned by `setTargetTemperature` never
settles: the catch handler only logs, so neither `resolve` nor `reject`
runs — refuting "the returned promise settles ... it rejects with the
terminal error". -/
theorem c9_counterexample :
    (setTargetTemperature envAll404 "tok0" (some (43 / 2))).isSettled = false := by
  simp [setTargetTemperature, toonRequest, handleRequestError, envAll404,
    putTemperatureOptions, updateAccessTokenInRequestObject, mkTrace,
    SettleResult.isSettled]

/-- C9 (amended): for a valid (nonzero) temperature and a non-empty access
token, `setTargetTemperature` resolves with the temperature whenever the
underlying PUT (with its single-retry recovery) resolves — in particular
with an expired token it performs one refresh, resubmits the PUT once with
the refreshed bearer token, and resolves with the temperature and no
visible error — but whenever the PUT terminally rejects, the returned
promise never settles (it neither resolves nor rejects). -/
theorem c9_set_target_settlement :
    (∀ (env : ReqEnv) (tok : String) (t : ℚ) (v : ℕ), t ≠ 0 → tok ≠ "" →
        (toonRequest env tok (putTemperatureOptions tok) 0).outcome
          = ReqOutcome.resolved v →
        setTargetTemperature env tok (some t) = SettleResult.resolves t)
  ∧ (∀ (env : ReqEnv) (tok : String) (t : ℚ) (e : RErr), t ≠ 0 → tok ≠ "" →
        (toonRequest env tok (putTemperatureOptions tok) 0).outcome
          = ReqOutcome.rejected e →
        setTargetTemperature env tok (some t) = SettleResult.pending)
  ∧ (∀ (env : ReqEnv) (tok : String) (t : ℚ) (c : Bool) (newTok : String) (v : ℕ),
        t ≠ 0 → tok ≠ "" →
        env.net 0 = NetResult.failure (some 401) c →
        env.refreshResult = Except.ok newTok →
        env.net 1 = NetResult.success v →
        setTargetTemperature env tok (some t) = SettleResult.resolves t
        ∧ toonRequest env tok (putTemperatureOptions tok) 0
            = ⟨ReqOutcome.resolved v,
               [⟨some ("Bearer " ++ tok), true⟩, ⟨some ("Bearer " ++ newTok), false⟩],
               1, 0, false, false⟩) := by
  have hmain : ∀ (env : ReqEnv) (tok : String) (t : ℚ), t ≠ 0 → tok ≠ "" →
      setTargetTemperature env tok (some t)
        = (match (toonRequest env tok (putTemperatureOptions tok) 0).outcome with
           | ReqOutcome.resolved _ => SettleResult.resolves t
           | ReqOutcome.rejected _ => SettleResult.pending) := by
    intro env tok t h1 h2
    simp [setTargetTemperature, h1, h2]
  refine ⟨?_, ?_, ?_⟩
  · intro env tok t v h1 h2 h3
    rw [hmain env tok t h1 h2, h3]
  · intro env tok t e h1 h2 h3
    rw [hmain env tok t h1 h2, h3]
  · intro env tok t c newTok v h1 h2 h3 h4 h5
    have h401 := toonRequest_401_refreshOk env tok ("Bearer " ++ tok) newTok c h3 h4
    have hinner := toonRequest_success env newTok ⟨some ("Bearer " ++ newTok), false⟩ 1 v h5
    have htrace : toonRequest env tok (putTemperatureOptions tok) 0
        = ⟨ReqOutcome.resolved v,
           [⟨some ("Bearer " ++ tok), true⟩, ⟨some ("Bearer " ++ newTok), false⟩],
           1, 0, false, false⟩ := by
      rw [putTemperatureOptions, h401, hinner]
      rfl
    refine ⟨?_, htrace⟩
    rw [hmain env tok t h1 h2, htrace]

/-- C9, witness for the amended theorem: the specification's own scenario —
`setTargetTemperature(21.5)` under an expired access token resolves with
21.5 after one refresh and one retried PUT. -/
theorem c9_set_target_settlement_witness :
    setTargetTemperature env401ThenOk "t0" (some (43 / 2))
      = SettleResult.resolves (43 / 2) :=
  (c9_set_target_settlement.2.2 env401ThenOk "t0" (43 / 2) false "newTok" 7
    (by norm_num) (by decide) rfl rfl rfl).1

/-- C10: `getStatus` never assigns `meterGas` or `meterPower`: a single
call preserves both fields, any sequence of calls preserves both fields,
the resolved snapshot (the updated state) therefore carries the values from
before the call, and on a fresh client both start unknown. -/
theorem c10_meter_frame :
    (∀ (st : ToonState) (r : Option ThermostatInfo),
        (getStatus st r).1.meterGas = st.meterGas
      ∧ (getStatus st r).1.meterPower = st.meterPower)
  ∧ (∀ (st : ToonState) (rs : List (Option ThermostatInfo)),
        (statusRun st rs).meterGas = st.meterGas
      ∧ (statusRun st rs).meterPower = st.meterPower)
  ∧ initToonState.meterGas = none ∧ initToonState.meterPower = none := by
  have hstep : ∀ (st : ToonState) (r : Option ThermostatInfo),
      (getStatus st r).1.meterGas = st.meterGas
    ∧ (getStatus st r).1.meterPower = st.meterPower := by
    intro st r
    rcases r with _ | ⟨ct, cs, ast⟩
    · simp [getStatus]
    · cases ct <;> cases cs <;> cases ast <;> simp [getStatus]
  refine ⟨hstep, ?_, rfl, rfl⟩
  intro st rs
  induction rs generalizing st with
  | nil => exact ⟨rfl, rfl⟩
  | cons r rest ih =>
    rw [statusRun, List.foldl_cons]
    have h1 := hstep st r
    have h2 := ih (getStatus st r).1
    rw [statusRun] at h2
    exact ⟨h2.1.trans h1.1, h2.2.trans h1.2⟩
